import Mathlib

/-!
Shallow embedding of the Twitter MCP server (TypeScript) in Lean 4.

The repository bundles a few variants of the same small server; the main
variant is `index.ts` + `config.ts` + `twitterClient.ts` (the full typed
client) + `mcpServer.ts` (tool registry, HTTP app, `formatTwitterError`).
A second variant (`server.ts`) inlines the Express app with explicit
`GET /mcp` / `DELETE /mcp` routes returning 405.

JavaScript peculiarities are modelled explicitly:
  * `undefined` vs `null` vs value on JSON fields (`JsField`),
  * string truthiness (`""` is falsy, modelled by `jsStr` / `jsFalsy`),
  * `a || b` fallback chains on optional strings,
  * `x ?? d` (nullish coalescing) on JSON fields.
-/

namespace TwitterMcp

/-- A JSON field as JavaScript sees it: absent (`undefined`), `null`, or a value. -/
inductive JsField (α : Type) where
  | undef : JsField α
  | null : JsField α
  | val : α → JsField α
deriving DecidableEq, Repr

/-- JavaScript `x ?? d`: `null` and `undefined` fall back to the default. -/
def JsField.orElse {α : Type} (d : α) : JsField α → α
  | .undef => d
  | .null => d
  | .val v => v

/-- JavaScript string truthiness: the empty string is falsy. -/
def jsFalsy (s : String) : Bool := s == ""

/-- An optional string as a JavaScript truthy value: `some ""` acts like `none`
in a `||` chain. -/
def jsStr : Option String → Option String
  | some s => if s = "" then none else some s
  | none => none

/-- Does the character list `t` start with the pattern `p`? -/
def startsWith : List Char → List Char → Bool
  | [], _ => true
  | _ :: _, [] => false
  | p :: ps, c :: cs => p == c && startsWith ps cs

/-- Does the character list `t` contain the pattern `p` as a contiguous run?
Models JavaScript `String.prototype.includes`. -/
def containsSeq (p : List Char) : List Char → Bool
  | [] => p.isEmpty
  | c :: cs => startsWith p (c :: cs) || containsSeq p cs

/-- `strContains t p`: does the string `t` contain `p` as a substring? -/
def strContains (t p : String) : Bool := containsSeq p.data t.data

/-- JavaScript `s.toLowerCase()` (character-wise lowering). -/
def lowerStr (s : String) : String := String.mk (s.data.map Char.toLower)

/-- JavaScript `s.slice(0, n)`: the first `n` characters of `s`. -/
def sliceStr (s : String) (n : Nat) : String := String.mk (s.data.take n)

theorem strData_append (a b : String) : (a ++ b).data = a.data ++ b.data := by
  cases a; cases b; rfl

theorem strLength_append (a b : String) : (a ++ b).length = a.length + b.length := by
  cases a with
  | mk la =>
    cases b with
    | mk lb =>
      show (la ++ lb).length = la.length + lb.length
      exact List.length_append la lb

theorem sliceStr_length (s : String) (n : Nat) :
    (sliceStr s n).length = min n s.length := by
  cases s with
  | mk l =>
    show (l.take n).length = min n l.length
    exact List.length_take n l

theorem startsWith_nil_left (t : List Char) : startsWith [] t = true := rfl

theorem startsWith_cons_nil (x : Char) (xs : List Char) :
    startsWith (x :: xs) [] = false := rfl

theorem startsWith_cons_cons (x c : Char) (xs cs : List Char) :
    startsWith (x :: xs) (c :: cs) = ((x == c) && startsWith xs cs) := rfl

theorem containsSeq_nil_right (p : List Char) : containsSeq p [] = p.isEmpty := rfl

theorem containsSeq_cons (p : List Char) (c : Char) (cs : List Char) :
    containsSeq p (c :: cs) = (startsWith p (c :: cs) || containsSeq p cs) := rfl

theorem startsWith_append (p a b : List Char) (h : startsWith p a = true) :
    startsWith p (a ++ b) = true := by
  induction p generalizing a with
  | nil => exact startsWith_nil_left _
  | cons x xs ih =>
    cases a with
    | nil => rw [startsWith_cons_nil] at h; exact absurd h (by decide)
    | cons c cs =>
      rw [startsWith_cons_cons, Bool.and_eq_true] at h
      rw [List.cons_append, startsWith_cons_cons, Bool.and_eq_true]
      exact ⟨h.1, ih cs h.2⟩

theorem containsSeq_append_left (p a b : List Char) (h : containsSeq p a = true) :
    containsSeq p (a ++ b) = true := by
  induction a with
  | nil =>
    rw [containsSeq_nil_right, List.isEmpty_iff] at h
    subst h
    cases b with
    | nil => rfl
    | cons c cs => rw [List.nil_append, containsSeq_cons, startsWith_nil_left]; rfl
  | cons c cs ih =>
    rw [containsSeq_cons, Bool.or_eq_true] at h
    rw [List.cons_append, containsSeq_cons, Bool.or_eq_true]
    rcases h with h | h
    · exact Or.inl (by rw [← List.cons_append]; exact startsWith_append p (c :: cs) b h)
    · exact Or.inr (ih h)

theorem strContains_append_left (a b p : String) (h : strContains a p = true) :
    strContains (a ++ b) p = true := by
  unfold strContains at h ⊢
  rw [strData_append]
  exact containsSeq_append_left p.data a.data b.data h

/-! ## Data model (`twitterClient.ts`, `config.ts`) -/

/-- `AppConfig` from `config.ts`. -/
structure AppConfig where
  port : Nat
  twitterBearerToken : String
  mcpServerApiKey : String
deriving DecidableEq, Repr

/-- `public_metrics` of a raw Twitter user record. -/
structure UserMetrics where
  followers_count : Option Nat
  following_count : Option Nat
  tweet_count : Option Nat
  listed_count : Option Nat
deriving DecidableEq, Repr

/-- A raw `TwitterUser` record as parsed from the upstream API. -/
structure TwitterUser where
  id : String
  name : String
  username : String
  description : Option String
  created_at : Option String
  public_metrics : Option UserMetrics
deriving DecidableEq, Repr

/-- `public_metrics` of a raw tweet record. -/
structure TweetMetrics where
  like_count : Option Nat
  reply_count : Option Nat
  retweet_count : Option Nat
  quote_count : Option Nat
deriving DecidableEq, Repr

/-- A raw `TwitterTweet` record as parsed from the upstream API. -/
structure TwitterTweet where
  id : String
  text : String
  author_id : Option String
  created_at : Option String
  public_metrics : Option TweetMetrics
deriving DecidableEq, Repr

/-- The normalized `UserSummary` shape returned by the client. -/
structure UserSummary where
  id : String
  name : String
  username : String
  description : Option String
  followersCount : Option Nat
  followingCount : Option Nat
  tweetCount : Option Nat
  listedCount : Option Nat
  createdAt : Option String
  profileUrl : String
deriving DecidableEq, Repr

/-- The normalized `TweetSummary` shape returned by the client. -/
structure TweetSummary where
  id : String
  text : String
  author : Option UserSummary
  createdAt : Option String
  likeCount : Option Nat
  replyCount : Option Nat
  retweetCount : Option Nat
  quoteCount : Option Nat
  url : String
deriving DecidableEq, Repr

/-- One entry of the upstream `errors` array (`TwitterApiError`). -/
structure ApiError where
  status : Nat
  title : String
  detail : Option String
deriving DecidableEq, Repr

/-- The parsed JSON body of an upstream response (`TwitterApiResponse<T>`).
`includes` collapses `includes?.users` to the list of embedded user records. -/
structure ApiBody (α : Type) where
  data : JsField α
  includes : Option (List TwitterUser)
  errors : Option (List ApiError)
deriving DecidableEq, Repr

/-- An upstream HTTP response as the client observes it: status information,
the raw body text, and the body parsed as JSON (`none` when parsing fails). -/
structure UpstreamResponse (α : Type) where
  ok : Bool
  status : Nat
  statusText : String
  bodyText : String
  json : Option (ApiBody α)
deriving DecidableEq, Repr

/-! ## Client operations (`twitterClient.ts`) -/

/-- `normalizeUser` from `twitterClient.ts`. -/
def normalizeUser (user : TwitterUser) : UserSummary :=
  { id := user.id
    name := user.name
    username := user.username
    description := user.description
    followersCount := user.public_metrics.bind (·.followers_count)
    followingCount := user.public_metrics.bind (·.following_count)
    tweetCount := user.public_metrics.bind (·.tweet_count)
    listedCount := user.public_metrics.bind (·.listed_count)
    createdAt := user.created_at
    profileUrl := "https://twitter.com/" ++ user.username }

/-- A `Map<string, UserSummary>` of authors, as a lookup function. -/
def AuthorsMap : Type := String → Option UserSummary

/-- `Map.prototype.set`: the new binding shadows any earlier one. -/
def mapSet (m : AuthorsMap) (k : String) (v : UserSummary) : AuthorsMap :=
  fun q => if q = k then some v else m q

/-- The empty author map. -/
def emptyAuthors : AuthorsMap := fun _ => none

/-- The author map built by `response.includes?.users?.forEach(u => authors.set(u.id, normalizeUser(u)))`. -/
def buildAuthors (users : Option (List TwitterUser)) : AuthorsMap :=
  (users.getD []).foldl (fun m u => mapSet m u.id (normalizeUser u)) emptyAuthors

/-- `normalizeTweet` from `twitterClient.ts`: truncates text beyond 560
characters to the first 557 plus `"..."`, resolves the author through the map
(JavaScript truthiness on `author_id`), and derives the permalink from the
resolved author's handle or the placeholder `"twitter"`. -/
def normalizeTweet (tweet : TwitterTweet) (authors : AuthorsMap) : TweetSummary :=
  let trimmed := if 560 < tweet.text.length then sliceStr tweet.text 557 ++ "..." else tweet.text
  let author := match jsStr tweet.author_id with
    | some aid => authors aid
    | none => none
  { id := tweet.id
    text := trimmed
    author := author
    createdAt := tweet.created_at
    likeCount := tweet.public_metrics.bind (·.like_count)
    replyCount := tweet.public_metrics.bind (·.reply_count)
    retweetCount := tweet.public_metrics.bind (·.retweet_count)
    quoteCount := tweet.public_metrics.bind (·.quote_count)
    url := "https://twitter.com/" ++
      (match author with
        | some a => a.username
        | none => "twitter") ++ "/status/" ++ tweet.id }

/-- `body?.errors?.[0]` on a response's parsed body. -/
def firstApiError {α : Type} (resp : UpstreamResponse α) : Option ApiError :=
  resp.json.bind fun b => b.errors.bind List.head?

/-- `buildErrorMessage` from `twitterClient.ts`: status part plus the fallback
chain `detail || title || response.statusText` (JavaScript `||` treats the
empty string as absent). -/
def buildErrorMessage {α : Type} (resp : UpstreamResponse α) : String :=
  let statusPart := "Twitter API error (" ++ toString resp.status ++ ")"
  match jsStr ((firstApiError resp).bind (·.detail)) <|> jsStr ((firstApiError resp).map (·.title)) with
  | some d => statusPart ++ ": " ++ d
  | none => statusPart ++ ": " ++ resp.statusText

/-- `fetchJson` from `twitterClient.ts`: non-OK statuses fail with
`buildErrorMessage`; a non-empty upstream `errors` array fails with
`detail || title || "Twitter API returned an error"`; a body that is not JSON
or lacks the `data` field (JavaScript `undefined`, not `null`) fails with
`"Malformed response from Twitter API"`; otherwise the parsed body is returned. -/
def fetchJson {α : Type} (resp : UpstreamResponse α) : Except String (ApiBody α) :=
  if resp.ok = false then .error (buildErrorMessage resp)
  else
    match resp.json with
    | none => .error "Malformed response from Twitter API"
    | some body =>
      match body.errors with
      | some (e :: _) =>
        .error ((jsStr e.detail <|> jsStr (some e.title)).getD "Twitter API returned an error")
      | _ =>
        match body.data with
        | .undef => .error "Malformed response from Twitter API"
        | _ => .ok body

/-- `getUserByUsername` from `twitterClient.ts`: fetch, then throw
`"User not found"` when `response.data` is not a record (`!response.data`). -/
def getUserByUsernameOp (resp : UpstreamResponse TwitterUser) : Except String UserSummary :=
  match fetchJson resp with
  | .error e => .error e
  | .ok body =>
    match body.data with
    | .val u => .ok (normalizeUser u)
    | _ => .error "User not found"

/-- `getUserTweets` from `twitterClient.ts`: fetch, build the author map from
the embedded records, and normalize `response.data ?? []`. -/
def getUserTweetsOp (resp : UpstreamResponse (List TwitterTweet)) :
    Except String (List TweetSummary) :=
  match fetchJson resp with
  | .error e => .error e
  | .ok body =>
    let authors := buildAuthors body.includes
    .ok ((body.data.orElse []).map (fun t => normalizeTweet t authors))

/-- `searchRecentTweets` from `twitterClient.ts`: same shape as
`getUserTweetsOp`, against the recent-search endpoint. -/
def searchRecentTweetsOp (resp : UpstreamResponse (List TwitterTweet)) :
    Except String (List TweetSummary) :=
  match fetchJson resp with
  | .error e => .error e
  | .ok body =>
    let authors := buildAuthors body.includes
    .ok ((body.data.orElse []).map (fun t => normalizeTweet t authors))

/-! ## Tool layer (`mcpServer.ts`) -/

/-- A caught JavaScript value at the handler boundary: an `Error` with a
message, a plain string, or anything else. -/
inductive ErrorValue where
  | err : String → ErrorValue
  | str : String → ErrorValue
  | other : ErrorValue
deriving DecidableEq, Repr

/-- The distinguished rate-limit message from `formatTwitterError`. -/
def rateLimitMessage : String := "Twitter API rate limit exceeded, try again later."

/-- `formatTwitterError` from `mcpServer.ts`: an `Error` whose (lower-cased)
message contains `"429"` becomes the rate-limit message; other `Error`s are
prefixed with `"Twitter API error: "`; strings pass through; anything else
becomes a generic message. -/
def formatTwitterError : ErrorValue → String
  | .err m =>
    let message := if m = "" then "Unknown error" else m
    if strContains (lowerStr message) "429" then rateLimitMessage
    else "Twitter API error: " ++ message
  | .str s => s
  | .other => "An unexpected error occurred while contacting Twitter."

/-- The raw argument bag for `search_tweets` before zod validation: each field
may be absent. -/
structure SearchArgs where
  query : Option String
  max_results : Option Int
deriving DecidableEq, Repr

/-- The raw argument bag for `get_user_tweets` before zod validation. -/
structure UserArgs where
  username : Option String
  max_results : Option Int
deriving DecidableEq, Repr

/-- `searchTweetsSchema.parse(input ?? {})`: `query` is a required string of
length at least 1; `max_results` is an integer in `[1, 50]` defaulting to 10. -/
def parseSearchTweets (input : Option SearchArgs) : Except String (String × Int) :=
  let args := input.getD { query := none, max_results := none }
  match args.query with
  | none => .error "query: Required"
  | some q =>
    if q.length < 1 then .error "query is required"
    else
      match args.max_results with
      | none => .ok (q, 10)
      | some n =>
        if n < 1 then .error "Number must be greater than or equal to 1"
        else if 50 < n then .error "Number must be less than or equal to 50"
        else .ok (q, n)

/-- `userTweetsSchema.parse(input ?? {})`: `username` is a required string of
length at least 1; `max_results` is an integer in `[1, 50]` defaulting to 10. -/
def parseUserTweets (input : Option UserArgs) : Except String (String × Int) :=
  let args := input.getD { username := none, max_results := none }
  match args.username with
  | none => .error "username: Required"
  | some u =>
    if u.length < 1 then .error "username is required"
    else
      match args.max_results with
      | none => .ok (u, 10)
      | some n =>
        if n < 1 then .error "Number must be greater than or equal to 1"
        else if 50 < n then .error "Number must be less than or equal to 50"
        else .ok (u, n)

/-- An outbound upstream request issued by a handler, for tracking which
endpoints a tool invocation hits. -/
inductive UpstreamCall where
  | searchRecent : String → Int → UpstreamCall
  | userByUsername : String → UpstreamCall
  | userTweets : String → Int → UpstreamCall
deriving DecidableEq, Repr

/-- A tool handler result: `json` models `jsonContent(payload)`, `text` models
`textContent(message)`. Both render to a single text content block. -/
inductive ToolResult (α : Type) where
  | json : α → ToolResult α
  | text : String → ToolResult α
deriving DecidableEq, Repr

/-- One MCP content block (the SDK shape `{ type: "text", text }`). -/
inductive ContentBlock where
  | text : String → ContentBlock
deriving DecidableEq, Repr

/-- Rendering of a tool result to MCP content blocks: `jsonContent` serializes
the payload with `JSON.stringify` (an arbitrary serializer here), `textContent`
carries the message. -/
def renderResult {α : Type} (stringify : α → String) : ToolResult α → List ContentBlock
  | .json p => [.text (stringify p)]
  | .text m => [.text m]

/-- The success payload of the `search_tweets` tool:
`{ query, count: tweets.length, tweets }`. -/
structure SearchPayload where
  query : String
  count : Nat
  tweets : List TweetSummary
deriving DecidableEq, Repr

/-- The success payload of the `get_user_tweets` tool: `{ user, tweets }`. -/
structure UserTweetsPayload where
  user : UserSummary
  tweets : List TweetSummary
deriving DecidableEq, Repr

/-- The `search_tweets` handler from `mcpServer.ts`, with the upstream
response as an explicit parameter and the list of issued upstream calls
returned alongside the result. Validation errors and client errors are caught
and wrapped through `formatTwitterError`. -/
def searchTweetsHandler (resp : UpstreamResponse (List TwitterTweet))
    (input : Option SearchArgs) : ToolResult SearchPayload × List UpstreamCall :=
  match parseSearchTweets input with
  | .error e => (.text (formatTwitterError (.err e)), [])
  | .ok (q, n) =>
    match searchRecentTweetsOp resp with
    | .error e => (.text (formatTwitterError (.err e)), [.searchRecent q n])
    | .ok tweets =>
      (.json { query := q, count := tweets.length, tweets := tweets }, [.searchRecent q n])

/-- The `get_user_tweets` handler from `mcpServer.ts`: parse the arguments,
resolve the username to a user, then fetch that user's tweets; every failure is
caught and wrapped through `formatTwitterError`. -/
def getUserTweetsHandler (userResp : UpstreamResponse TwitterUser)
    (tweetsResp : UpstreamResponse (List TwitterTweet))
    (input : Option UserArgs) : ToolResult UserTweetsPayload × List UpstreamCall :=
  match parseUserTweets input with
  | .error e => (.text (formatTwitterError (.err e)), [])
  | .ok (username, n) =>
    match getUserByUsernameOp userResp with
    | .error e => (.text (formatTwitterError (.err e)), [.userByUsername username])
    | .ok user =>
      match getUserTweetsOp tweetsResp with
      | .error e =>
        (.text (formatTwitterError (.err e)), [.userByUsername username, .userTweets user.id n])
      | .ok tweets =>
        (.json { user := user, tweets := tweets },
          [.userByUsername username, .userTweets user.id n])

/-! ## HTTP transport and auth gate (`mcpServer.ts` `createHttpApp`, and the
single-file `server.ts` variant) -/

/-- An inbound HTTP method (the ones the apps route on). -/
inductive Method where
  | get : Method
  | post : Method
  | delete : Method
deriving DecidableEq, Repr

/-- An inbound HTTP request: method, path, the `x-api-key` header (absent or
its value), and the raw body. -/
structure HttpRequest where
  method : Method
  path : String
  apiKey : Option String
  body : String
deriving DecidableEq, Repr

/-- The observable outcome of routing one request through an app:
a JSON-RPC error envelope with an HTTP status, the body being handed to the
MCP transport (`transport.handleRequest`), the health payload, or Express's
default 404. -/
inductive AppResponse where
  | jsonRpcError : Nat → Int → AppResponse
  | forwarded : String → AppResponse
  | health : AppResponse
  | notFound : AppResponse
deriving DecidableEq, Repr

/-- The auth middleware's rejection test `!key || key !== secret`
(JavaScript truthiness: a missing or empty header is rejected). -/
def authRejects (secret : String) (key : Option String) : Bool :=
  match key with
  | none => true
  | some k => jsFalsy k || k != secret

/-- Request routing of the Express app built by `createHttpApp` in
`mcpServer.ts`: the `/mcp` middleware checks the key only when
`config.mcpServerApiKey` is truthy; `POST /mcp` forwards the body to the
transport; `GET /health` answers unauthenticated; everything else is 404. -/
def createHttpAppHandle (config : AppConfig) (req : HttpRequest) : AppResponse :=
  if req.path = "/mcp" then
    if !(jsFalsy config.mcpServerApiKey) && authRejects config.mcpServerApiKey req.apiKey then
      .jsonRpcError 401 (-32001)
    else
      match req.method with
      | .post => .forwarded req.body
      | _ => .notFound
  else if req.path = "/health" && req.method == .get then .health
  else .notFound

/-- Request routing of the Express app in the single-file `server.ts` variant:
the `/mcp` middleware always checks the key (the secret is a required
environment variable there), `POST /mcp` forwards to the transport, and
`GET /mcp` / `DELETE /mcp` answer 405 with code -32000. -/
def serverAppHandle (config : AppConfig) (req : HttpRequest) : AppResponse :=
  if req.path = "/mcp" then
    if authRejects config.mcpServerApiKey req.apiKey then
      .jsonRpcError 401 (-32001)
    else
      match req.method with
      | .post => .forwarded req.body
      | .get => .jsonRpcError 405 (-32000)
      | .delete => .jsonRpcError 405 (-32000)
  else .notFound

/-- Arguments that violate the `search_tweets` schema in the ways the spec
singles out: an empty required string, or a limit outside `[1, 50]`. -/
def badSearchArgs (a : SearchArgs) : Prop :=
  a.query = some "" ∨ ∃ n, a.max_results = some n ∧ (n < 1 ∨ 50 < n)

/-! ## Helper lemmas -/

theorem lowerStr_append (a b : String) : lowerStr (a ++ b) = lowerStr a ++ lowerStr b := by
  unfold lowerStr
  rw [strData_append, List.map_append]
  rfl

theorem formatTwitterError_contains429 (m : String)
    (h : strContains (lowerStr m) "429" = true) :
    formatTwitterError (.err m) = rateLimitMessage := by
  have hm : ¬ (m = "") := by
    intro he
    rw [he] at h
    exact absurd h (by decide)
  simp only [formatTwitterError]
  rw [if_neg hm, if_pos h]

theorem fetchJson_ok {α : Type} (resp : UpstreamResponse α) (b : ApiBody α)
    (hok : resp.ok = true) (hjson : resp.json = some b)
    (herr : b.errors = none ∨ b.errors = some [])
    (hdata : b.data ≠ .undef) :
    fetchJson resp = .ok b := by
  cases hd : b.data with
  | undef => exact absurd hd hdata
  | null => rcases herr with h | h <;> simp [fetchJson, hok, hjson, h, hd]
  | val v => rcases herr with h | h <;> simp [fetchJson, hok, hjson, h, hd]

theorem fetchJson_undef {α : Type} (resp : UpstreamResponse α) (b : ApiBody α)
    (hok : resp.ok = true) (hjson : resp.json = some b)
    (herr : b.errors = none ∨ b.errors = some [])
    (hdata : b.data = .undef) :
    fetchJson resp = .error "Malformed response from Twitter API" := by
  rcases herr with h | h <;> simp [fetchJson, hok, hjson, h, hdata]

theorem fetchJson_not_ok {α : Type} (resp : UpstreamResponse α) (hok : resp.ok = false) :
    fetchJson resp = .error (buildErrorMessage resp) := by
  simp [fetchJson, hok]

theorem buildErrorMessage_429 {α : Type} (resp : UpstreamResponse α)
    (hst : resp.status = 429) :
    ∃ sfx, buildErrorMessage resp = "Twitter API error (429): " ++ sfx := by
  have hpre : ("Twitter API error (" ++ toString (429 : Nat) ++ ")") ++ ": " =
      "Twitter API error (429): " := by decide
  unfold buildErrorMessage
  rw [hst]
  cases jsStr ((firstApiError resp).bind (·.detail)) <|> jsStr ((firstApiError resp).map (·.title)) with
  | some d =>
    refine ⟨d, ?_⟩
    show ("Twitter API error (" ++ toString (429 : Nat) ++ ")") ++ ": " ++ d = _
    rw [hpre]
  | none =>
    refine ⟨resp.statusText, ?_⟩
    show ("Twitter API error (" ++ toString (429 : Nat) ++ ")") ++ ": " ++ resp.statusText = _
    rw [hpre]

/-! ## Sample values used by witnesses and counterexamples -/

/-- A configuration with a non-empty shared secret. -/
def sampleConfig : AppConfig :=
  { port := 3000, twitterBearerToken := "token", mcpServerApiKey := "secret" }

/-- A short tweet (text within the truncation bound). -/
def shortTweet : TwitterTweet :=
  { id := "1", text := "hello world", author_id := some "9", created_at := none,
    public_metrics := none }

/-- A tweet whose text has 600 characters, beyond the truncation bound. -/
def longTweet : TwitterTweet :=
  { id := "2", text := String.mk (List.replicate 600 'a'), author_id := none,
    created_at := none, public_metrics := none }

/-- An embedded author record with id `"9"`. -/
def sampleUser : TwitterUser :=
  { id := "9", name := "Nine", username := "nine", description := none,
    created_at := none, public_metrics := none }

/-- A successful upstream response whose body lacks the `data` field. -/
def noDataResp : UpstreamResponse (List TwitterTweet) :=
  { ok := true, status := 200, statusText := "OK", bodyText := "meta only",
    json := some { data := .undef, includes := none, errors := none } }

/-- A successful user-lookup response whose body lacks the `data` field. -/
def noDataUserResp : UpstreamResponse TwitterUser :=
  { ok := true, status := 200, statusText := "OK", bodyText := "meta only",
    json := some { data := .undef, includes := none, errors := none } }

/-! ## Claims -/

/-- Claim C3: the normalized post text never exceeds 560 characters; text
strictly longer than 560 is replaced by its first 557 characters followed by
`"..."`, and text of length at most 560 is passed through unchanged. -/
theorem normalizeTweet_truncation (t : TwitterTweet) (authors : AuthorsMap) :
    (normalizeTweet t authors).text.length ≤ 560
    ∧ (560 < t.text.length →
        (normalizeTweet t authors).text = sliceStr t.text 557 ++ "...")
    ∧ (t.text.length ≤ 560 → (normalizeTweet t authors).text = t.text) := by
  have htext : (normalizeTweet t authors).text =
      if 560 < t.text.length then sliceStr t.text 557 ++ "..." else t.text := rfl
  by_cases h : 560 < t.text.length
  · rw [htext, if_pos h]
    have hlen : (sliceStr t.text 557 ++ "...").length = 560 := by
      rw [strLength_append, sliceStr_length]
      have hmin : min 557 t.text.length = 557 := by omega
      have hdots : ("..." : String).length = 3 := rfl
      rw [hmin, hdots]
    refine ⟨by rw [hlen], fun _ => rfl, fun h2 => absurd h (by omega)⟩
  · rw [htext, if_neg h]
    exact ⟨by omega, fun h2 => absurd h2 h, fun _ => rfl⟩

theorem longTweet_text_length : longTweet.text.length = 600 := by
  show (List.replicate 600 'a').length = 600
  rw [List.length_replicate]

/-- Witness for C3 at concrete inputs: a short text passes through unchanged
and a 600-character text is truncated. -/
theorem normalizeTweet_truncation_witness :
    (normalizeTweet shortTweet emptyAuthors).text = shortTweet.text
    ∧ (normalizeTweet longTweet emptyAuthors).text = sliceStr longTweet.text 557 ++ "..." :=
  ⟨(normalizeTweet_truncation shortTweet emptyAuthors).2.2 (by decide),
   (normalizeTweet_truncation longTweet emptyAuthors).2.1
      (by rw [longTweet_text_length]; omega)⟩

/-- Claim C8: with the author map built from the embedded records, a post whose
author id resolves gets that account summary as author and a permalink with the
author's handle; a post whose author id does not resolve (or is missing) gets
no author and the placeholder handle `"twitter"` in its permalink; and the
search operation normalizes every returned post against the map built from the
response's embedded records. -/
theorem normalizeTweet_author_resolution (t : TwitterTweet) (users : Option (List TwitterUser)) :
    (∀ aid u, jsStr t.author_id = some aid → buildAuthors users aid = some u →
        (normalizeTweet t (buildAuthors users)).author = some u
        ∧ (normalizeTweet t (buildAuthors users)).url =
            "https://twitter.com/" ++ u.username ++ "/status/" ++ t.id)
    ∧ (∀ aid, jsStr t.author_id = some aid → buildAuthors users aid = none →
        (normalizeTweet t (buildAuthors users)).author = none
        ∧ (normalizeTweet t (buildAuthors users)).url =
            "https://twitter.com/" ++ "twitter" ++ "/status/" ++ t.id)
    ∧ (jsStr t.author_id = none →
        (normalizeTweet t (buildAuthors users)).author = none
        ∧ (normalizeTweet t (buildAuthors users)).url =
            "https://twitter.com/" ++ "twitter" ++ "/status/" ++ t.id)
    ∧ (∀ (resp : UpstreamResponse (List TwitterTweet)) (b : ApiBody (List TwitterTweet))
        (tweets : List TwitterTweet),
        resp.ok = true → resp.json = some b → (b.errors = none ∨ b.errors = some []) →
        b.data = .val tweets →
        searchRecentTweetsOp resp =
          .ok (tweets.map (fun tw => normalizeTweet tw (buildAuthors b.includes)))) := by
  refine ⟨?_, ?_, ?_, ?_⟩
  · intro aid u h1 h2
    constructor <;> simp [normalizeTweet, h1, h2]
  · intro aid h1 h2
    constructor <;> simp [normalizeTweet, h1, h2]
  · intro h1
    constructor <;> simp [normalizeTweet, h1]
  · intro resp b tweets hok hjson herr hdata
    have hf : fetchJson resp = .ok b :=
      fetchJson_ok resp b hok hjson herr (by rw [hdata]; intro hc; cases hc)
    simp [searchRecentTweetsOp, hf, hdata, JsField.orElse]

/-- Witness for C8 at concrete inputs: a tweet whose author id `"9"` is among
the embedded records resolves to that author; without embedded records the
author is empty and the placeholder handle is used. -/
theorem normalizeTweet_author_resolution_witness :
    ((normalizeTweet shortTweet (buildAuthors (some [sampleUser]))).author =
        some (normalizeUser sampleUser)
      ∧ (normalizeTweet shortTweet (buildAuthors (some [sampleUser]))).url =
          "https://twitter.com/" ++ (normalizeUser sampleUser).username ++ "/status/" ++
            shortTweet.id)
    ∧ ((normalizeTweet shortTweet (buildAuthors (some []))).author = none
      ∧ (normalizeTweet shortTweet (buildAuthors (some []))).url =
          "https://twitter.com/" ++ "twitter" ++ "/status/" ++ shortTweet.id) :=
  ⟨(normalizeTweet_author_resolution shortTweet (some [sampleUser])).1 "9"
      (normalizeUser sampleUser) (by decide) (by decide),
   (normalizeTweet_author_resolution shortTweet (some [])).2.1 "9" (by decide) (by decide)⟩

/-- Claim C9: a success-status response whose JSON body lacks the `data` field
(the upstream's shape for a search with zero matches) makes the search, the
timeline, and the user-lookup operations fail with
`"Malformed response from Twitter API"` instead of returning an empty result. -/
theorem missing_data_malformed_error :
    (∀ (resp : UpstreamResponse (List TwitterTweet)) (b : ApiBody (List TwitterTweet)),
        resp.ok = true → resp.json = some b → (b.errors = none ∨ b.errors = some []) →
        b.data = .undef →
        searchRecentTweetsOp resp = .error "Malformed response from Twitter API"
        ∧ getUserTweetsOp resp = .error "Malformed response from Twitter API")
    ∧ (∀ (resp : UpstreamResponse TwitterUser) (b : ApiBody TwitterUser),
        resp.ok = true → resp.json = some b → (b.errors = none ∨ b.errors = some []) →
        b.data = .undef →
        getUserByUsernameOp resp = .error "Malformed response from Twitter API") := by
  constructor
  · intro resp b hok hjson herr hdata
    have hf := fetchJson_undef resp b hok hjson herr hdata
    constructor <;> simp [searchRecentTweetsOp, getUserTweetsOp, hf]
  · intro resp b hok hjson herr hdata
    have hf := fetchJson_undef resp b hok hjson herr hdata
    simp [getUserByUsernameOp, hf]

/-- Witness for C9 at a concrete response with status 200 and body lacking
`data`: all three operations report the malformed-response error. -/
theorem missing_data_malformed_error_witness :
    (searchRecentTweetsOp noDataResp = .error "Malformed response from Twitter API"
      ∧ getUserTweetsOp noDataResp = .error "Malformed response from Twitter API")
    ∧ getUserByUsernameOp noDataUserResp = .error "Malformed response from Twitter API" :=
  ⟨missing_data_malformed_error.1 noDataResp
      { data := .undef, includes := none, errors := none } rfl rfl (Or.inl rfl) rfl,
   missing_data_malformed_error.2 noDataUserResp
      { data := .undef, includes := none, errors := none } rfl rfl (Or.inl rfl) rfl⟩

/-- Claim C10: any `Error` whose lower-cased message contains `"429"` anywhere
is reported as the rate-limit message by `formatTwitterError`, discarding the
original message, even when the failure was not a rate limit. -/
theorem format_error_429_substring_hijack (m : String)
    (h : strContains (lowerStr m) "429" = true) :
    formatTwitterError (.err m) = rateLimitMessage :=
  formatTwitterError_contains429 m h

/-- Witness for C10: a not-found error for a tweet id containing `429` is
reported as a rate limit. -/
theorem format_error_429_substring_hijack_witness :
    formatTwitterError (.err "Twitter API error: Could not find tweet with id 4290") =
      rateLimitMessage :=
  format_error_429_substring_hijack
    "Twitter API error: Could not find tweet with id 4290" (by decide)

/-- Claim C6: a search invocation with valid arguments against an upstream
failure with HTTP status 429 produces exactly the rate-limit phrase as the
tool's text result, for every upstream body; the raw body never appears since
the message is this fixed phrase. -/
theorem rate_limit_429_tool_message (resp : UpstreamResponse (List TwitterTweet))
    (input : Option SearchArgs) (q : String) (n : Int)
    (hparse : parseSearchTweets input = .ok (q, n))
    (hok : resp.ok = false) (hst : resp.status = 429) :
    searchTweetsHandler resp input = (.text rateLimitMessage, [.searchRecent q n]) := by
  have hf : fetchJson resp = .error (buildErrorMessage resp) := fetchJson_not_ok resp hok
  have hop : searchRecentTweetsOp resp = .error (buildErrorMessage resp) := by
    simp [searchRecentTweetsOp, hf]
  obtain ⟨sfx, hmsg⟩ := buildErrorMessage_429 resp hst
  have hcontain : strContains (lowerStr (buildErrorMessage resp)) "429" = true := by
    rw [hmsg, lowerStr_append]
    exact strContains_append_left _ _ _ (by decide)
  have hfmt : formatTwitterError (.err (buildErrorMessage resp)) = rateLimitMessage :=
    formatTwitterError_contains429 _ hcontain
  simp [searchTweetsHandler, hparse, hop, hfmt]

/-- A concrete 429 upstream response whose raw body would name the quota. -/
def rateLimitedResp : UpstreamResponse (List TwitterTweet) :=
  { ok := false, status := 429, statusText := "Too Many Requests",
    bodyText := "UsageCapExceeded: monthly product cap", json := none }

/-- Witness for C6: a valid query against the concrete 429 response yields
exactly the rate-limit phrase. -/
theorem rate_limit_429_tool_message_witness :
    searchTweetsHandler rateLimitedResp (some { query := some "openai", max_results := some 5 }) =
      (.text rateLimitMessage, [.searchRecent "openai" 5]) :=
  rate_limit_429_tool_message rateLimitedResp
    (some { query := some "openai", max_results := some 5 }) "openai" 5 rfl rfl rfl

/-- Claim C5: the `get_user_tweets` handler resolves the handle first and only
then fetches posts (its call trace on success is exactly lookup followed by the
posts fetch, keyed by the resolved account id); when the upstream reports the
handle as not found (a success response with a `null` `data` record), the
result is a plain-text error containing `"not found"` and no call to the posts
endpoint is issued. -/
theorem get_user_tweets_sequencing_and_notfound :
    (∀ (userResp : UpstreamResponse TwitterUser)
        (tweetsResp : UpstreamResponse (List TwitterTweet))
        (input : Option UserArgs) (q : String) (n : Int) (b : ApiBody TwitterUser),
        parseUserTweets input = .ok (q, n) →
        userResp.ok = true → userResp.json = some b →
        (b.errors = none ∨ b.errors = some []) → b.data = .null →
        getUserTweetsHandler userResp tweetsResp input =
          (.text "Twitter API error: User not found", [.userByUsername q])
        ∧ strContains "Twitter API error: User not found" "not found" = true
        ∧ ∀ uid lim, UpstreamCall.userTweets uid lim ∉
            (getUserTweetsHandler userResp tweetsResp input).2)
    ∧ (∀ (userResp : UpstreamResponse TwitterUser)
        (tweetsResp : UpstreamResponse (List TwitterTweet))
        (input : Option UserArgs) (q : String) (n : Int)
        (u : UserSummary) (ts : List TweetSummary),
        parseUserTweets input = .ok (q, n) →
        getUserByUsernameOp userResp = .ok u →
        getUserTweetsOp tweetsResp = .ok ts →
        getUserTweetsHandler userResp tweetsResp input =
          (.json { user := u, tweets := ts }, [.userByUsername q, .userTweets u.id n])) := by
  constructor
  · intro userResp tweetsResp input q n b hparse hok hjson herr hdata
    have hf : fetchJson userResp = .ok b :=
      fetchJson_ok userResp b hok hjson herr (by rw [hdata]; intro hc; cases hc)
    have hlookup : getUserByUsernameOp userResp = .error "User not found" := by
      simp [getUserByUsernameOp, hf, hdata]
    have hfmt : formatTwitterError (.err "User not found") =
        "Twitter API error: User not found" := by decide
    have hh : getUserTweetsHandler userResp tweetsResp input =
        (.text "Twitter API error: User not found", [.userByUsername q]) := by
      simp [getUserTweetsHandler, hparse, hlookup, hfmt]
    refine ⟨hh, by decide, ?_⟩
    intro uid lim
    rw [hh]
    simp
  · intro userResp tweetsResp input q n u ts hparse hlookup htweets
    simp [getUserTweetsHandler, hparse, hlookup, htweets]

/-- A user-lookup response in which the upstream reports no record:
status 200 with a `null` `data` field. -/
def notFoundUserResp : UpstreamResponse TwitterUser :=
  { ok := true, status := 200, statusText := "OK", bodyText := "no user",
    json := some { data := .null, includes := none, errors := none } }

/-- Witness for C5: for handle `"ghost"` against the concrete not-found lookup
response, the result is the textual not-found error and the trace holds no
posts call. -/
theorem get_user_tweets_sequencing_and_notfound_witness :
    getUserTweetsHandler notFoundUserResp noDataResp
        (some { username := some "ghost", max_results := some 5 }) =
      (.text "Twitter API error: User not found", [.userByUsername "ghost"]) :=
  (get_user_tweets_sequencing_and_notfound.1 notFoundUserResp noDataResp
    (some { username := some "ghost", max_results := some 5 }) "ghost" 5
    { data := .null, includes := none, errors := none }
    rfl rfl rfl (Or.inl rfl) rfl).1

/-- Claim C2: arguments violating the `search_tweets` schema (empty required
string or out-of-bounds limit) produce a textual error result with an empty
upstream call trace; and for every input and upstream response the handler
returns a well-formed result rendering to exactly one content block (nothing
escapes the handler boundary). -/
theorem search_tweets_handler_validation_and_totality :
    (∀ (resp : UpstreamResponse (List TwitterTweet)) (a : SearchArgs),
        badSearchArgs a →
        ∃ m, searchTweetsHandler resp (some a) = (.text m, []))
    ∧ (∀ (resp : UpstreamResponse (List TwitterTweet)) (input : Option SearchArgs)
        (stringify : SearchPayload → String),
        (renderResult stringify (searchTweetsHandler resp input).1).length = 1) := by
  constructor
  · intro resp a hbad
    have hparse : ∃ e, parseSearchTweets (some a) = .error e := by
      rcases hbad with hq | ⟨n, hn, hbounds⟩
      · exact ⟨"query is required", by simp [parseSearchTweets, hq]⟩
      · cases hq : a.query with
        | none => exact ⟨"query: Required", by simp [parseSearchTweets, hq]⟩
        | some q =>
          by_cases hlen : q.length < 1
          · exact ⟨"query is required", by simp [parseSearchTweets, hq, hlen]⟩
          · rcases hbounds with h1 | h2
            · exact ⟨"Number must be greater than or equal to 1",
                by simp [parseSearchTweets, hq, hlen, hn, h1]⟩
            · have h1 : ¬ (n < 1) := by omega
              exact ⟨"Number must be less than or equal to 50",
                by simp [parseSearchTweets, hq, hlen, hn, h1, h2]⟩
    rcases hparse with ⟨e, he⟩
    exact ⟨formatTwitterError (.err e), by simp [searchTweetsHandler, he]⟩
  · intro resp input stringify
    cases (searchTweetsHandler resp input).1 <;> simp [renderResult]

/-- Witness for C2: an empty query yields a textual error with no upstream
call, and rendering a result of the handler yields one content block. -/
theorem search_tweets_handler_validation_and_totality_witness :
    (∃ m, searchTweetsHandler noDataResp (some { query := some "", max_results := none }) =
        (.text m, []))
    ∧ (renderResult (fun _ => "payload")
        (searchTweetsHandler noDataResp (some { query := some "", max_results := none })).1).length = 1 :=
  ⟨search_tweets_handler_validation_and_totality.1 noDataResp
      { query := some "", max_results := none } (Or.inl rfl),
   search_tweets_handler_validation_and_totality.2 noDataResp
      (some { query := some "", max_results := none }) (fun _ => "payload")⟩

/-- Claim C1: with a shared secret configured, a `POST /mcp` request whose
`x-api-key` header is absent or different from the secret is answered with the
401 JSON-RPC envelope carrying code -32001, and its body is never handed to
the protocol transport. -/
theorem auth_gate_unauthorized (config : AppConfig) (req : HttpRequest)
    (hsecret : config.mcpServerApiKey ≠ "")
    (hpath : req.path = "/mcp") (_hmethod : req.method = .post)
    (hkey : req.apiKey = none ∨ ∃ k, req.apiKey = some k ∧ k ≠ config.mcpServerApiKey) :
    createHttpAppHandle config req = .jsonRpcError 401 (-32001)
    ∧ ∀ b, createHttpAppHandle config req ≠ .forwarded b := by
  have hrej : authRejects config.mcpServerApiKey req.apiKey = true := by
    rcases hkey with h | ⟨k, hk, hne⟩
    · simp [authRejects, h]
    · simp [authRejects, hk, jsFalsy]
      by_cases hke : k = ""
      · exact Or.inl hke
      · exact Or.inr hne
  have heq : createHttpAppHandle config req = .jsonRpcError 401 (-32001) := by
    simp [createHttpAppHandle, hpath, hrej, jsFalsy, hsecret]
  exact ⟨heq, fun b => by simp [heq]⟩

/-- Witness for C1: a POST to `/mcp` with a wrong key against the sample
configuration is rejected with 401 and code -32001. -/
theorem auth_gate_unauthorized_witness :
    createHttpAppHandle sampleConfig
        { method := .post, path := "/mcp", apiKey := some "wrong", body := "x" } =
      .jsonRpcError 401 (-32001) :=
  (auth_gate_unauthorized sampleConfig
    { method := .post, path := "/mcp", apiKey := some "wrong", body := "x" }
    (by decide) rfl rfl (Or.inr ⟨"wrong", rfl, by decide⟩)).1

/-- A non-success upstream response whose body is not JSON. -/
def nonJson500 : UpstreamResponse (List TwitterTweet) :=
  { ok := false, status := 500, statusText := "Internal Server Error",
    bodyText := "upstream exploded", json := none }

/-- Counterexample to C4 as stated: for a 500 response with the non-JSON body
`"upstream exploded"`, the error message falls back to the HTTP status text,
not to the raw body text — the raw body appears nowhere in the message. -/
theorem fetchJson_raw_body_fallback_counterexample :
    fetchJson nonJson500 = .error "Twitter API error (500): Internal Server Error"
    ∧ strContains "Twitter API error (500): Internal Server Error" nonJson500.bodyText = false
    ∧ strContains "Twitter API error (500): Internal Server Error" nonJson500.statusText = true :=
  ⟨rfl, by decide, by decide⟩

/-- Claim C4 as amended: every non-success HTTP status is converted into a
single error carrying the HTTP status and the most specific upstream message,
falling back in the order: the first error's `detail` field, then its `title`
field, then the HTTP status text (not the raw body text). -/
theorem fetchJson_error_message_fallback {α : Type} (resp : UpstreamResponse α)
    (hok : resp.ok = false) :
    fetchJson resp = .error (buildErrorMessage resp)
    ∧ (∀ d, jsStr ((firstApiError resp).bind (·.detail)) = some d →
        buildErrorMessage resp =
          ("Twitter API error (" ++ toString resp.status ++ ")") ++ ": " ++ d)
    ∧ (jsStr ((firstApiError resp).bind (·.detail)) = none →
        ∀ ttl, jsStr ((firstApiError resp).map (·.title)) = some ttl →
        buildErrorMessage resp =
          ("Twitter API error (" ++ toString resp.status ++ ")") ++ ": " ++ ttl)
    ∧ (jsStr ((firstApiError resp).bind (·.detail)) = none →
        jsStr ((firstApiError resp).map (·.title)) = none →
        buildErrorMessage resp =
          ("Twitter API error (" ++ toString resp.status ++ ")") ++ ": " ++ resp.statusText) := by
  refine ⟨fetchJson_not_ok resp hok, ?_, ?_, ?_⟩
  · intro d hd
    simp [buildErrorMessage, hd]
  · intro hd ttl httl
    simp [buildErrorMessage, hd, httl]
  · intro hd httl
    simp [buildErrorMessage, hd, httl]

/-- Witness for C4 (amended) at the concrete non-JSON 500 response: the
fallback lands on the HTTP status text. -/
theorem fetchJson_error_message_fallback_witness :
    fetchJson nonJson500 = .error (buildErrorMessage nonJson500)
    ∧ buildErrorMessage nonJson500 =
        ("Twitter API error (" ++ toString nonJson500.status ++ ")") ++ ": " ++
          nonJson500.statusText :=
  ⟨(fetchJson_error_message_fallback nonJson500 rfl).1,
   (fetchJson_error_message_fallback nonJson500 rfl).2.2.2 rfl rfl⟩

/-- A GET request to `/mcp` with no `x-api-key` header. -/
def getMcpNoKey : HttpRequest :=
  { method := .get, path := "/mcp", apiKey := none, body := "x" }

/-- Counterexample to C7 as stated: a `GET /mcp` without the key header is
answered 401 by the auth middleware, not 405 — the 405 routes run only after
the gate. -/
theorem mcp_get_without_key_counterexample :
    serverAppHandle sampleConfig getMcpNoKey = .jsonRpcError 401 (-32001)
    ∧ serverAppHandle sampleConfig getMcpNoKey ≠ .jsonRpcError 405 (-32000) := by
  decide

/-- Claim C7 as amended: a `GET /mcp` or `DELETE /mcp` request that passes the
auth gate (its `x-api-key` equals the configured, non-empty secret) is answered
405 with code -32000, regardless of its body. -/
theorem mcp_get_delete_405_with_valid_key (config : AppConfig) (req : HttpRequest)
    (hpath : req.path = "/mcp") (hmethod : req.method = .get ∨ req.method = .delete)
    (hkey : req.apiKey = some config.mcpServerApiKey)
    (hsecret : config.mcpServerApiKey ≠ "") :
    serverAppHandle config req = .jsonRpcError 405 (-32000) := by
  have hrej : authRejects config.mcpServerApiKey req.apiKey = false := by
    simp [authRejects, hkey, jsFalsy, hsecret]
  rcases hmethod with h | h <;> simp [serverAppHandle, hpath, hrej, h]

/-- Witness for C7 (amended): a GET to `/mcp` with the correct key is answered
405 with code -32000. -/
theorem mcp_get_delete_405_with_valid_key_witness :
    serverAppHandle sampleConfig
        { method := .get, path := "/mcp", apiKey := some "secret", body := "x" } =
      .jsonRpcError 405 (-32000) :=
  mcp_get_delete_405_with_valid_key sampleConfig
    { method := .get, path := "/mcp", apiKey := some "secret", body := "x" }
    rfl (Or.inl rfl) rfl (by decide)

end TwitterMcp
